import Mathlib

/-!
Shallow embedding of the chat-flow-builder core (src/core/workflow.py,
src/core/edges.py, src/core/variables.py, src/utils/position_calc.py,
src/utils/id_generator.py, src/generators/node_generator.py,
src/generators/block_generator.py) together with proofs of the spec's
testable properties. Python dicts are modelled as insertion-ordered
association lists; `uuid.uuid4()` is modelled as a deterministic supply of
pairwise-distinct opaque token strings threaded explicitly through every
operation; a method that mutates `self` is modelled as a function returning
the result together with the new state.
-/

set_option autoImplicit false

namespace ChatFlow

/-- Model of `uuid.uuid4()` output: the n-th id drawn from the generator.
The encoding guarantees that distinct draws are distinct strings. -/
def uuidStr (n : Nat) : String := String.mk ('u' :: List.replicate n 'x')

/-- State of the id supply: how many ids have been generated so far. -/
structure IdGen where
  counter : Nat
deriving DecidableEq, Repr

/-- `generate_uuid()` from id_generator.py: draw a fresh id. -/
def genUuid (g : IdGen) : String × IdGen := (uuidStr g.counter, ⟨g.counter + 1⟩)

/-- `generate_start_node_id()` from id_generator.py: the fixed entry-node id. -/
def generateStartNodeId : String := "start00000000000000000000"

theorem uuidStr_injective : Function.Injective uuidStr := by
  intro m n h
  have hl := congrArg (fun s : String => s.data.length) h
  simpa [uuidStr] using hl

/-- Python dict lookup `d.get(k)` on an insertion-ordered association list. -/
def dictGet {α : Type} : List (String × α) → String → Option α
  | [], _ => none
  | (k, v) :: rest, key => if k = key then some v else dictGet rest key

/-- Python dict assignment `d[k] = v`: overwrite in place if the key exists,
append otherwise. -/
def dictSet {α : Type} : List (String × α) → String → α → List (String × α)
  | [], key, val => [(key, val)]
  | (k, v) :: rest, key, val =>
      if k = key then (k, val) :: rest else (k, v) :: dictSet rest key val

theorem dictGet_set_self {α : Type} (m : List (String × α)) (k : String) (v : α) :
    dictGet (dictSet m k v) k = some v := by
  induction m with
  | nil => simp [dictGet, dictSet]
  | cons p rest ih =>
      obtain ⟨a, b⟩ := p
      by_cases h : a = k <;> simp [dictGet, dictSet, h, ih]

theorem dictGet_set_ne {α : Type} (m : List (String × α)) (k k' : String) (v : α)
    (h : k ≠ k') : dictGet (dictSet m k v) k' = dictGet m k' := by
  induction m with
  | nil => simp [dictGet, dictSet, h]
  | cons p rest ih =>
      obtain ⟨a, b⟩ := p
      by_cases ha : a = k
      · subst ha
        simp [dictGet, dictSet, h]
      · by_cases hb : a = k'
        · subst hb
          simp [dictGet, dictSet, ha, Ne.symm h]
        · simp [dictGet, dictSet, ha, hb, ih]

theorem dictGet_append_left {α : Type} (m m' : List (String × α)) (k : String) (v : α)
    (h : dictGet m k = some v) : dictGet (m ++ m') k = some v := by
  induction m with
  | nil => simp [dictGet] at h
  | cons p rest ih =>
      obtain ⟨a, b⟩ := p
      by_cases ha : a = k <;> simp_all [dictGet]

theorem dictGet_mem {α : Type} (m : List (String × α)) (k : String) (v : α)
    (h : dictGet m k = some v) : (k, v) ∈ m := by
  induction m with
  | nil => simp [dictGet] at h
  | cons p rest ih =>
      obtain ⟨a, b⟩ := p
      by_cases ha : a = k
      · subst ha
        simp [dictGet] at h
        simp [h]
      · simp [dictGet, ha] at h
        exact List.mem_cons_of_mem _ (ih h)

/-- A 2D point, the `{"x": ..., "y": ...}` position dicts. -/
structure Pos where
  x : Int
  y : Int
deriving DecidableEq, Repr

/-- PositionCalculator from position_calc.py: two monotone counters. -/
structure PositionCalculator where
  functional_node_count : Nat
  block_node_count : Nat
deriving DecidableEq, Repr

namespace PositionCalculator

def FUNCTIONAL_X : Int := 125
def FUNCTIONAL_START_Y : Int := 325
def FUNCTIONAL_Y_INCREMENT : Int := 200
def BLOCK_START_X : Int := 475
def BLOCK_X_INCREMENT : Int := 350
def BLOCK_Y_OFFSET : Int := -50
def START_X : Int := 125
def START_Y : Int := 325

/-- `PositionCalculator()` constructor. -/
def init : PositionCalculator := ⟨0, 0⟩

def get_start_position (_pc : PositionCalculator) : Pos := ⟨START_X, START_Y⟩

def get_functional_position (pc : PositionCalculator) : Pos × PositionCalculator :=
  (⟨FUNCTIONAL_X, FUNCTIONAL_START_Y + (pc.functional_node_count : Int) * FUNCTIONAL_Y_INCREMENT⟩,
   { pc with functional_node_count := pc.functional_node_count + 1 })

def get_block_position (pc : PositionCalculator) (functional_y : Int) :
    Pos × PositionCalculator :=
  (⟨BLOCK_START_X + (pc.block_node_count : Int) * BLOCK_X_INCREMENT,
    functional_y + BLOCK_Y_OFFSET⟩,
   { pc with block_node_count := pc.block_node_count + 1 })

def get_node_pair_positions (pc : PositionCalculator) :
    (Pos × Pos) × PositionCalculator :=
  let r1 := pc.get_functional_position
  let r2 := r1.2.get_block_position r1.1.y
  ((r1.1, r2.1), r2.2)

end PositionCalculator

/-- Value part of the `_variables` dict in variables.py. -/
structure VarInfo where
  description : String
  lang : String
deriving DecidableEq, Repr

/-- VariableTracker from variables.py. -/
structure VariableTracker where
  lang : String
  vars : List (String × VarInfo)
deriving DecidableEq, Repr

/-- Wire shape of one entry of `get_all_variables()`. -/
structure VariableDecl where
  variable_name : String
  description : String
  lang : String
deriving DecidableEq, Repr

namespace VariableTracker

/-- `VariableTracker(lang)` constructor. -/
def init (lang : String) : VariableTracker := ⟨lang, []⟩

/-- Python `description or variable_name`: `or` falls through on None and on
the empty string. -/
def descrOrName (description : Option String) (variable_name : String) : String :=
  match description with
  | none => variable_name
  | some d => if d = "" then variable_name else d

def register (vt : VariableTracker) (variable_name : String)
    (description : Option String) : VariableTracker :=
  if (dictGet vt.vars variable_name).isSome then vt
  else { vt with
    vars := vt.vars ++ [(variable_name, ⟨descrOrName description variable_name, vt.lang⟩)] }

def is_registered (vt : VariableTracker) (variable_name : String) : Bool :=
  (dictGet vt.vars variable_name).isSome

def get_all_variables (vt : VariableTracker) : List VariableDecl :=
  vt.vars.map fun p => ⟨p.1, p.2.description, p.2.lang⟩

def count (vt : VariableTracker) : Nat := vt.vars.length

def clear (vt : VariableTracker) : VariableTracker := { vt with vars := [] }

/-- `update_description` raises KeyError when the name is absent; the raise
happens before any mutation, so the error branch returns the state
unchanged. -/
def update_description (vt : VariableTracker) (variable_name description : String) :
    Except String Unit × VariableTracker :=
  match dictGet vt.vars variable_name with
  | none => (.error ("Variable '" ++ variable_name ++ "' is not registered"), vt)
  | some info =>
      (.ok (), { vt with
        vars := dictSet vt.vars variable_name { info with description := description } })

end VariableTracker

/-- Edge wire shape from edges.py (`data: {hovering: false}` flattened into
the `hovering` field). -/
structure Edge where
  id : String
  type : String
  source : String
  target : String
  sourceHandle : String
  targetHandle : String
  hovering : Bool
  label : String
  sourceX : Int
  sourceY : Int
  targetX : Int
  targetY : Int
  zIndex : Nat
  animated : Bool
deriving DecidableEq, Repr

/-- `create_edge` from edges.py. -/
def create_edge (source_block_id target_block_id : String)
    (source_handle target_handle : Option String)
    (source_x source_y target_x target_y : Int) : Edge :=
  let source_handle := source_handle.getD source_block_id
  let target_handle := target_handle.getD target_block_id
  { id := "vueflow__edge-" ++ source_block_id ++ source_handle ++ "-"
        ++ target_block_id ++ target_handle,
    type := "custom",
    source := source_block_id,
    target := target_block_id,
    sourceHandle := source_handle,
    targetHandle := target_handle,
    hovering := false,
    label := "",
    sourceX := source_x,
    sourceY := source_y,
    targetX := target_x,
    targetY := target_y,
    zIndex := 0,
    animated := false }

/-- EdgeManager from edges.py. -/
structure EdgeManager where
  edges : List Edge
deriving DecidableEq, Repr

namespace EdgeManager

def init : EdgeManager := ⟨[]⟩

def add_edge (em : EdgeManager) (source_block_id target_block_id : String)
    (source_handle target_handle : Option String) : Edge × EdgeManager :=
  let edge := create_edge source_block_id target_block_id source_handle target_handle 0 0 0 0
  (edge, ⟨em.edges ++ [edge]⟩)

def get_all_edges (em : EdgeManager) : List Edge := em.edges

def count (em : EdgeManager) : Nat := em.edges.length

end EdgeManager

/-- One comparison clause inside a condition branch (node_generator.py). -/
structure CondClause where
  condition_type : String
  comparison_operator : String
  condition_value : String
  condition_variable : String
deriving DecidableEq, Repr

/-- One `if_else_conditions` entry; `condition_id` is `none` when the caller
omits it (or passes None) and is filled in by `create_condition_node`. -/
structure CondBranch where
  condition_id : Option String
  condition_name : String
  logical_operator : String
  conditions : List CondClause
deriving DecidableEq, Repr

/-- One entry of a code node's `outputs` list; `variable_assign` is optional. -/
structure CodeOutput where
  name : String
  type : String
  variable_assign : Option String
deriving DecidableEq, Repr

/-- One entry of a code node's `args` list. -/
structure CodeArg where
  name : String
  default_value : String
  type : String
deriving DecidableEq, Repr

/-- The default-shaped `llm_config` dict of `create_llm_variable_assignment_node`. -/
structure LlmAssignConfig where
  rag_correlation_threshold : Nat
  rag_max_reference_knowledge_num : Nat
  divergence : Nat
  prompt : String
  llm_name : String
  rag_question : String
  rag_range : String
  rag_enabled : String
  knowledge_base_ids : List String
  knowledge_search_flag : Bool
  chat_history_flag : Bool
  chat_history_count : Nat
  ltm_enabled : Bool
  ltm_search_range : String
  ltm_robot_ids : List String
  ltm_question : String
  ltm_recall_count : Nat
deriving DecidableEq, Repr

/-- The default-shaped `llm_config` dict of `create_llm_reply_node` (extra
fields over the assignment variant, including two generated condition ids). -/
structure LlmReplyConfig where
  rag_correlation_threshold : Nat
  rag_max_reference_knowledge_num : Nat
  slang_enable : Bool
  divergence : Nat
  prompt : String
  llm_name : String
  rag_question : String
  rag_range : String
  rag_enabled : String
  knowledge_base_ids : List String
  knowledge_search_flag : Bool
  chat_history_flag : Bool
  chat_history_count : Nat
  ltm_enabled : Bool
  ltm_search_range : String
  ltm_robot_ids : List String
  ltm_question : String
  ltm_recall_count : Nat
  verify_enable : Bool
  verify_count : Nat
  verify_constraints : String
  main_condition_id : String
  other_condition_id : String
deriving DecidableEq, Repr

/-- Per-type `config` payload of a node dict. -/
inductive NodeConfig where
  | textReplyCfg (async_run : Bool) (text : String) (text_id : String) (title : String)
  | captureCfg (variable_assign : String) (title : String)
  | conditionCfg (if_else_conditions : List CondBranch) (title : String)
  | codeCfg (title : String) (desc : String) (code : String) (code_language : String)
      (outputs : List CodeOutput) (args : List CodeArg)
  | llmAssignCfg (title : String) (desc : String) (prompt_template : String)
      (variable_assign : String) (llm_config : LlmAssignConfig)
  | llmReplyCfg (desc : String) (prompt_template : String) (async_run : Bool)
      (llm_config : LlmReplyConfig) (title : String)
deriving DecidableEq, Repr

/-- The `data` sub-dict of a node; keys absent for some node types are
modelled with `Option`. -/
structure NodeData where
  label : Option String
  showToolBar : Bool
  targetPosition : String
  sourcePosition : String
  sourceHandle : Option String
  include_node_ids : Option (List String)
deriving DecidableEq, Repr

/-- Node wire shape; keys absent for some node types are `Option`/`none`. -/
structure Node where
  id : String
  type : String
  initialized : Bool
  nodePos : Pos
  data : NodeData
  blockId : Option String
  hidden : Option Bool
  config : Option NodeConfig
deriving DecidableEq, Repr

/-- Access `node["data"]["sourceHandle"]`, a key known to be present on the
start node and on every functional node. -/
def Node.dataSourceHandle (n : Node) : String := n.data.sourceHandle.getD ""

/-- `create_start_node` from node_generator.py. -/
def create_start_node (position_x position_y : Int) (source_handle : Option String)
    (g : IdGen) : Node × IdGen :=
  let r := match source_handle with
    | none => genUuid g
    | some s => (s, g)
  ({ id := generateStartNodeId,
     type := "start",
     initialized := false,
     nodePos := ⟨position_x, position_y⟩,
     data := { label := some "Start", showToolBar := false, targetPosition := "left",
               sourcePosition := "right", sourceHandle := some r.1,
               include_node_ids := none },
     blockId := none, hidden := none, config := none }, r.2)

/-- `create_text_reply_node` from node_generator.py (node id, source handle
and text id drawn in source order; `block_id` is always supplied by the
builder, the generated fallback is kept for faithfulness). -/
def create_text_reply_node (text title : String) (node_id block_id : Option String)
    (position_x position_y : Int) (async_run : Bool) (g : IdGen) : Node × IdGen :=
  let rn := match node_id with
    | none => genUuid g
    | some i => (i, g)
  let rb := match block_id with
    | none => genUuid rn.2
    | some i => (i, rn.2)
  let rs := genUuid rb.2
  let rt := genUuid rs.2
  ({ id := rn.1,
     type := "textReply",
     initialized := false,
     nodePos := ⟨position_x, position_y⟩,
     data := { label := none, showToolBar := false, targetPosition := "left",
               sourcePosition := "right", sourceHandle := some rs.1,
               include_node_ids := none },
     blockId := some rb.1, hidden := some true,
     config := some (.textReplyCfg async_run text rt.1 title) }, rt.2)

/-- `create_capture_user_reply_node` from node_generator.py. -/
def create_capture_user_reply_node (variable_name title : String)
    (node_id block_id : Option String) (position_x position_y : Int)
    (g : IdGen) : Node × IdGen :=
  let rn := match node_id with
    | none => genUuid g
    | some i => (i, g)
  let rb := match block_id with
    | none => genUuid rn.2
    | some i => (i, rn.2)
  let rs := genUuid rb.2
  ({ id := rn.1,
     type := "captureUserReply",
     initialized := false,
     nodePos := ⟨position_x, position_y⟩,
     data := { label := none, showToolBar := false, targetPosition := "left",
               sourcePosition := "right", sourceHandle := some rs.1,
               include_node_ids := none },
     blockId := some rb.1, hidden := some true,
     config := some (.captureCfg variable_name title) }, rs.2)

/-- The in-place `condition_id` assignment loop of `create_condition_node`:
every branch lacking an id gets a fresh one, in list order. -/
def assignConditionIds : List CondBranch → IdGen → List CondBranch × IdGen
  | [], g => ([], g)
  | c :: rest, g =>
      let rc : CondBranch × IdGen := match c.condition_id with
        | none =>
            let ri := genUuid g
            ({ c with condition_id := some ri.1 }, ri.2)
        | some _ => (c, g)
      let rr := assignConditionIds rest rc.2
      (rc.1 :: rr.1, rr.2)

/-- `create_condition_node` from node_generator.py. -/
def create_condition_node (if_else_conditions : List CondBranch) (title : String)
    (node_id block_id : Option String) (position_x position_y : Int)
    (g : IdGen) : Node × IdGen :=
  let rn := match node_id with
    | none => genUuid g
    | some i => (i, g)
  let rb := match block_id with
    | none => genUuid rn.2
    | some i => (i, rn.2)
  let rs := genUuid rb.2
  let rconds := assignConditionIds if_else_conditions rs.2
  ({ id := rn.1,
     type := "condition",
     initialized := false,
     nodePos := ⟨position_x, position_y⟩,
     data := { label := none, showToolBar := false, targetPosition := "left",
               sourcePosition := "right", sourceHandle := some rs.1,
               include_node_ids := none },
     blockId := some rb.1, hidden := some true,
     config := some (.conditionCfg rconds.1 title) }, rconds.2)

/-- `create_code_node` from node_generator.py. -/
def create_code_node (code : String) (outputs : List CodeOutput)
    (args : Option (List CodeArg)) (title desc code_language : String)
    (node_id block_id : Option String) (position_x position_y : Int)
    (g : IdGen) : Node × IdGen :=
  let rn := match node_id with
    | none => genUuid g
    | some i => (i, g)
  let rb := match block_id with
    | none => genUuid rn.2
    | some i => (i, rn.2)
  let args := args.getD []
  let rs := genUuid rb.2
  ({ id := rn.1,
     type := "code",
     initialized := false,
     nodePos := ⟨position_x, position_y⟩,
     data := { label := none, showToolBar := false, targetPosition := "left",
               sourcePosition := "right", sourceHandle := some rs.1,
               include_node_ids := none },
     blockId := some rb.1, hidden := some true,
     config := some (.codeCfg title desc code code_language outputs args) }, rs.2)

/-- Default `llm_config` of `create_llm_variable_assignment_node`. -/
def defaultLlmAssignConfig : LlmAssignConfig :=
  { rag_correlation_threshold := 65, rag_max_reference_knowledge_num := 3,
    divergence := 2, prompt := "", llm_name := "azure-gpt-4o",
    rag_question := "", rag_range := "", rag_enabled := "",
    knowledge_base_ids := [], knowledge_search_flag := false,
    chat_history_flag := false, chat_history_count := 5,
    ltm_enabled := false, ltm_search_range := "0", ltm_robot_ids := [],
    ltm_question := "", ltm_recall_count := 5 }

/-- `create_llm_variable_assignment_node` from node_generator.py. -/
def create_llm_variable_assignment_node (prompt_template variable_assign : String)
    (llm_config : Option LlmAssignConfig) (title desc : String)
    (node_id block_id : Option String) (position_x position_y : Int)
    (g : IdGen) : Node × IdGen :=
  let rn := match node_id with
    | none => genUuid g
    | some i => (i, g)
  let rb := match block_id with
    | none => genUuid rn.2
    | some i => (i, rn.2)
  let rs := genUuid rb.2
  let llm_config := llm_config.getD defaultLlmAssignConfig
  ({ id := rn.1,
     type := "llmVariableAssignment",
     initialized := false,
     nodePos := ⟨position_x, position_y⟩,
     data := { label := none, showToolBar := false, targetPosition := "left",
               sourcePosition := "right", sourceHandle := some rs.1,
               include_node_ids := none },
     blockId := some rb.1, hidden := some true,
     config := some (.llmAssignCfg title desc prompt_template variable_assign llm_config) },
   rs.2)

/-- Default `llm_config` of `create_llm_reply_node`; the two condition ids
are drawn from the id supply. -/
def defaultLlmReplyConfig (g : IdGen) : LlmReplyConfig × IdGen :=
  let rm := genUuid g
  let ro := genUuid rm.2
  ({ rag_correlation_threshold := 65, rag_max_reference_knowledge_num := 3,
     slang_enable := false, divergence := 2, prompt := "",
     llm_name := "azure-gpt-4o", rag_question := "", rag_range := "",
     rag_enabled := "", knowledge_base_ids := [], knowledge_search_flag := false,
     chat_history_flag := true, chat_history_count := 5,
     ltm_enabled := false, ltm_search_range := "0", ltm_robot_ids := [],
     ltm_question := "", ltm_recall_count := 5,
     verify_enable := false, verify_count := 5, verify_constraints := "",
     main_condition_id := rm.1, other_condition_id := ro.1 }, ro.2)

/-- `create_llm_reply_node` from node_generator.py. -/
def create_llm_reply_node (prompt_template : String)
    (llm_config : Option LlmReplyConfig) (title desc : String) (async_run : Bool)
    (node_id block_id : Option String) (position_x position_y : Int)
    (g : IdGen) : Node × IdGen :=
  let rn := match node_id with
    | none => genUuid g
    | some i => (i, g)
  let rb := match block_id with
    | none => genUuid rn.2
    | some i => (i, rn.2)
  let rs := genUuid rb.2
  let rc : LlmReplyConfig × IdGen := match llm_config with
    | none => defaultLlmReplyConfig rs.2
    | some c => (c, rs.2)
  ({ id := rn.1,
     type := "llMReply",
     initialized := false,
     nodePos := ⟨position_x, position_y⟩,
     data := { label := none, showToolBar := false, targetPosition := "left",
               sourcePosition := "right", sourceHandle := some rs.1,
               include_node_ids := none },
     blockId := some rb.1, hidden := some true,
     config := some (.llmReplyCfg desc prompt_template async_run rc.1 title) }, rc.2)

/-- `create_block_node` from block_generator.py. -/
def create_block_node (block_id : String) (include_node_ids : List String)
    (label : String) (position_x position_y : Int) : Node :=
  { id := block_id,
    type := "block",
    initialized := false,
    nodePos := ⟨position_x, position_y⟩,
    data := { label := some label, showToolBar := false, targetPosition := "left",
              sourcePosition := "right", sourceHandle := none,
              include_node_ids := some include_node_ids },
    blockId := none, hidden := none, config := none }

/-- `create_block_for_functional_node` from block_generator.py. -/
def create_block_for_functional_node (functional_node_id label : String)
    (block_position : Pos) (block_id : Option String) (g : IdGen) : Node × IdGen :=
  let rb := match block_id with
    | none => genUuid g
    | some i => (i, g)
  (create_block_node rb.1 [functional_node_id] label block_position.x block_position.y,
   rb.2)

/-- Workflow builder state from workflow.py (plus the explicit id supply that
models `uuid.uuid4()`). -/
structure Workflow where
  flow_name : String
  description : String
  lang : String
  created_by : String
  modified_by : String
  position_calc : PositionCalculator
  variable_tracker : VariableTracker
  edge_manager : EdgeManager
  nodes : List Node
  start_node : Option Node
  flow_uuid : String
  intention_uuid : String
  last_block_id : Option String
  node_handles : List (String × String)
  block_to_func : List (String × String)
  func_to_block : List (String × String)
  gen : IdGen
deriving DecidableEq, Repr

/-- `Workflow(...)` constructor. -/
def mkWorkflow (flow_name description lang created_by modified_by : String)
    (g : IdGen) : Workflow :=
  let rf := genUuid g
  let ri := genUuid rf.2
  { flow_name := flow_name, description := description, lang := lang,
    created_by := created_by, modified_by := modified_by,
    position_calc := PositionCalculator.init,
    variable_tracker := VariableTracker.init lang,
    edge_manager := EdgeManager.init,
    nodes := [], start_node := none,
    flow_uuid := rf.1, intention_uuid := ri.1,
    last_block_id := none, node_handles := [],
    block_to_func := [], func_to_block := [], gen := ri.2 }

namespace Workflow

/-- `Workflow.add_start_node`; the duplicate check is the first statement of
the method, so the error branch leaves the state untouched. -/
def add_start_node (w : Workflow) : Except String String × Workflow :=
  match w.start_node with
  | some _ =>
      (.error "Start node already exists. Only one start node is allowed per workflow.", w)
  | none =>
      let pos := w.position_calc.get_start_position
      let rs := create_start_node pos.x pos.y none w.gen
      let sn := rs.1
      let w := { w with
        start_node := some sn,
        nodes := w.nodes ++ [sn],
        last_block_id := some sn.id,
        node_handles := dictSet w.node_handles sn.id sn.dataSourceHandle,
        gen := rs.2 }
      (.ok sn.id, w)

/-- `Workflow.connect_nodes`: resolve the omitted handles from the stored
handle map and the wrapper-to-functional map, then add the edge. -/
def connect_nodes (w : Workflow) (source_block_id target_block_id : String)
    (source_handle target_handle : Option String) : Edge × Workflow :=
  let source_handle := match source_handle with
    | none => dictGet w.node_handles source_block_id
    | some h => some h
  let target_handle := match target_handle with
    | none => some ((dictGet w.block_to_func target_block_id).getD target_block_id)
    | some h => some h
  let re := w.edge_manager.add_edge source_block_id target_block_id
    source_handle target_handle
  (re.1, { w with edge_manager := re.2 })

/-- The shared `if auto_connect and self.last_block_id:` step. -/
def autoConnectStep (w : Workflow) (auto_connect : Bool) (prev : Option String)
    (block_id : String) : Workflow :=
  match auto_connect, prev with
  | true, some p => (w.connect_nodes p block_id none none).2
  | _, _ => w

/-- `Workflow.add_text_reply`. -/
def add_text_reply (w : Workflow) (text : String) (title : String)
    (auto_connect : Bool) : String × Workflow :=
  let rp := w.position_calc.get_node_pair_positions
  let functional_pos := rp.1.1
  let block_pos := rp.1.2
  let rb := genUuid w.gen
  let block_id := rb.1
  let rf := create_text_reply_node text title none (some block_id)
    functional_pos.x functional_pos.y false rb.2
  let functional_node := rf.1
  let rk := create_block_for_functional_node functional_node.id title block_pos
    (some block_id) rf.2
  let block_node := rk.1
  let w1 := { w with
    position_calc := rp.2,
    nodes := w.nodes ++ [functional_node, block_node],
    node_handles := dictSet w.node_handles block_id functional_node.dataSourceHandle,
    block_to_func := dictSet w.block_to_func block_id functional_node.id,
    func_to_block := dictSet w.func_to_block functional_node.id block_id,
    gen := rk.2 }
  let w2 := autoConnectStep w1 auto_connect w1.last_block_id block_id
  (block_id, { w2 with last_block_id := some block_id })

/-- `Workflow.add_capture_user_reply` (registers the variable first). -/
def add_capture_user_reply (w : Workflow) (variable_name : String)
    (description : Option String) (title : String)
    (auto_connect : Bool) : String × Workflow :=
  let vt := w.variable_tracker.register variable_name description
  let rp := w.position_calc.get_node_pair_positions
  let functional_pos := rp.1.1
  let block_pos := rp.1.2
  let rb := genUuid w.gen
  let block_id := rb.1
  let rf := create_capture_user_reply_node variable_name title none (some block_id)
    functional_pos.x functional_pos.y rb.2
  let functional_node := rf.1
  let rk := create_block_for_functional_node functional_node.id title block_pos
    (some block_id) rf.2
  let block_node := rk.1
  let w1 := { w with
    variable_tracker := vt,
    position_calc := rp.2,
    nodes := w.nodes ++ [functional_node, block_node],
    node_handles := dictSet w.node_handles block_id functional_node.dataSourceHandle,
    block_to_func := dictSet w.block_to_func block_id functional_node.id,
    func_to_block := dictSet w.func_to_block functional_node.id block_id,
    gen := rk.2 }
  let w2 := autoConnectStep w1 auto_connect w1.last_block_id block_id
  (block_id, { w2 with last_block_id := some block_id })

/-- Extract `[cond["condition_id"] for cond in ...config["if_else_conditions"]]`;
after `create_condition_node` every branch carries an id. -/
def Node.conditionIds (n : Node) : List String :=
  match n.config with
  | some (.conditionCfg branches _) => branches.map (fun b => b.condition_id.getD "")
  | _ => []

/-- `Workflow.add_condition`. Unlike every other add-operation it stores no
`node_handles` entry for the new wrapper. -/
def add_condition (w : Workflow) (if_else_conditions : List CondBranch)
    (title : String) (auto_connect : Bool) : (String × List String) × Workflow :=
  let rp := w.position_calc.get_node_pair_positions
  let functional_pos := rp.1.1
  let block_pos := rp.1.2
  let rb := genUuid w.gen
  let block_id := rb.1
  let rf := create_condition_node if_else_conditions title none (some block_id)
    functional_pos.x functional_pos.y rb.2
  let functional_node := rf.1
  let rk := create_block_for_functional_node functional_node.id title block_pos
    (some block_id) rf.2
  let block_node := rk.1
  let w1 := { w with
    position_calc := rp.2,
    nodes := w.nodes ++ [functional_node, block_node],
    block_to_func := dictSet w.block_to_func block_id functional_node.id,
    func_to_block := dictSet w.func_to_block functional_node.id block_id,
    gen := rk.2 }
  let w2 := autoConnectStep w1 auto_connect w1.last_block_id block_id
  ((block_id, Node.conditionIds functional_node),
   { w2 with last_block_id := some block_id })

/-- `Workflow.add_code` (registers every output's `variable_assign` first). -/
def add_code (w : Workflow) (code : String) (outputs : List CodeOutput)
    (args : Option (List CodeArg)) (title description : String)
    (auto_connect : Bool) : String × Workflow :=
  let vt := outputs.foldl
    (fun vt o => match o.variable_assign with
      | some v => vt.register v none
      | none => vt)
    w.variable_tracker
  let rp := w.position_calc.get_node_pair_positions
  let functional_pos := rp.1.1
  let block_pos := rp.1.2
  let rb := genUuid w.gen
  let block_id := rb.1
  let rf := create_code_node code outputs args title description "python3" none
    (some block_id) functional_pos.x functional_pos.y rb.2
  let functional_node := rf.1
  let rk := create_block_for_functional_node functional_node.id title block_pos
    (some block_id) rf.2
  let block_node := rk.1
  let w1 := { w with
    variable_tracker := vt,
    position_calc := rp.2,
    nodes := w.nodes ++ [functional_node, block_node],
    node_handles := dictSet w.node_handles block_id functional_node.dataSourceHandle,
    block_to_func := dictSet w.block_to_func block_id functional_node.id,
    func_to_block := dictSet w.func_to_block functional_node.id block_id,
    gen := rk.2 }
  let w2 := autoConnectStep w1 auto_connect w1.last_block_id block_id
  (block_id, { w2 with last_block_id := some block_id })

/-- `Workflow.add_llm_variable_assignment`. -/
def add_llm_variable_assignment (w : Workflow) (prompt_template variable_assign : String)
    (llm_config : Option LlmAssignConfig) (title description : String)
    (auto_connect : Bool) : String × Workflow :=
  let vt := w.variable_tracker.register variable_assign none
  let rp := w.position_calc.get_node_pair_positions
  let functional_pos := rp.1.1
  let block_pos := rp.1.2
  let rb := genUuid w.gen
  let block_id := rb.1
  let rf := create_llm_variable_assignment_node prompt_template variable_assign
    llm_config title description none (some block_id)
    functional_pos.x functional_pos.y rb.2
  let functional_node := rf.1
  let rk := create_block_for_functional_node functional_node.id title block_pos
    (some block_id) rf.2
  let block_node := rk.1
  let w1 := { w with
    variable_tracker := vt,
    position_calc := rp.2,
    nodes := w.nodes ++ [functional_node, block_node],
    node_handles := dictSet w.node_handles block_id functional_node.dataSourceHandle,
    block_to_func := dictSet w.block_to_func block_id functional_node.id,
    func_to_block := dictSet w.func_to_block functional_node.id block_id,
    gen := rk.2 }
  let w2 := autoConnectStep w1 auto_connect w1.last_block_id block_id
  (block_id, { w2 with last_block_id := some block_id })

/-- `Workflow.add_llm_reply`. -/
def add_llm_reply (w : Workflow) (prompt_template : String)
    (llm_config : Option LlmReplyConfig) (title description : String)
    (auto_connect : Bool) : String × Workflow :=
  let rp := w.position_calc.get_node_pair_positions
  let functional_pos := rp.1.1
  let block_pos := rp.1.2
  let rb := genUuid w.gen
  let block_id := rb.1
  let rf := create_llm_reply_node prompt_template llm_config title description false
    none (some block_id) functional_pos.x functional_pos.y rb.2
  let functional_node := rf.1
  let rk := create_block_for_functional_node functional_node.id title block_pos
    (some block_id) rf.2
  let block_node := rk.1
  let w1 := { w with
    position_calc := rp.2,
    nodes := w.nodes ++ [functional_node, block_node],
    node_handles := dictSet w.node_handles block_id functional_node.dataSourceHandle,
    block_to_func := dictSet w.block_to_func block_id functional_node.id,
    func_to_block := dictSet w.func_to_block functional_node.id block_id,
    gen := rk.2 }
  let w2 := autoConnectStep w1 auto_connect w1.last_block_id block_id
  (block_id, { w2 with last_block_id := some block_id })

/-- `Workflow.connect_condition_branch`. -/
def connect_condition_branch (w : Workflow)
    (condition_block_id condition_id target_block_id : String) : Edge × Workflow :=
  w.connect_nodes condition_block_id target_block_id (some condition_id) none

end Workflow

/-- The exported wire document of `Workflow.to_json` (constant-valued keys
such as `buttons`, `config`, `intention_info`, `entities`, `categories` are
carried as their constant empty values). -/
structure Document where
  created_by : String
  modified_by : String
  flow_uuid : String
  start_node_uuid : String
  intention_uuid : String
  flow_name : String
  description : String
  nodes : List Node
  edges : List Edge
  buttons : List String
  entities : List String
  lang : String
  docVariables : List VariableDecl
  categories : List String
  docPosition : List Int
  zoom : Nat
  viewport_x : Int
  viewport_y : Int
  viewport_zoom : Nat
deriving DecidableEq, Repr

/-- `Workflow.to_json`: the method only reads state, so it returns the
document together with the unchanged builder. -/
def Workflow.to_json (w : Workflow) : Document × Workflow :=
  ({ created_by := w.created_by,
     modified_by := w.modified_by,
     flow_uuid := w.flow_uuid,
     start_node_uuid := generateStartNodeId,
     intention_uuid := w.intention_uuid,
     flow_name := w.flow_name,
     description := w.description,
     nodes := w.nodes,
     edges := w.edge_manager.get_all_edges,
     buttons := [],
     entities := [],
     lang := w.lang,
     docVariables := w.variable_tracker.get_all_variables,
     categories := [],
     docPosition := [0, 0],
     zoom := 1,
     viewport_x := 0,
     viewport_y := 0,
     viewport_zoom := 1 }, w)

/-! Helper developments for the claim theorems. -/

/-- Iterate `get_node_pair_positions` n times, keeping only the state. -/
def PositionCalculator.iterPairs : PositionCalculator → Nat → PositionCalculator
  | pc, 0 => pc
  | pc, n + 1 => PositionCalculator.iterPairs (pc.get_node_pair_positions).2 n

theorem iterPairs_counts (a b n : Nat) :
    PositionCalculator.iterPairs ⟨a, b⟩ n = ⟨a + n, b + n⟩ := by
  induction n generalizing a b with
  | zero => rfl
  | succ n ih =>
      show PositionCalculator.iterPairs _ n = _
      rw [show ((⟨a, b⟩ : PositionCalculator).get_node_pair_positions).2 =
        (⟨a + 1, b + 1⟩ : PositionCalculator) from rfl, ih]
      simp [Nat.add_comm, Nat.add_assoc, Nat.add_left_comm]

/-- One registry operation of the variable registry's mutating surface
besides `clear`. -/
inductive RegOp where
  | reg (variable_name : String) (description : Option String)
  | upd (variable_name : String) (description : String)
deriving DecidableEq, Repr

def applyRegOp (vt : VariableTracker) : RegOp → VariableTracker
  | .reg n d => vt.register n d
  | .upd n d => (vt.update_description n d).2

theorem is_registered_register (vt : VariableTracker) (n : String) (d : Option String)
    (m : String) (h : vt.is_registered m = true) :
    (vt.register n d).is_registered m = true := by
  unfold VariableTracker.is_registered at h ⊢
  unfold VariableTracker.register
  by_cases hc : (dictGet vt.vars n).isSome
  · simp [hc, h]
  · obtain ⟨v, hv⟩ := Option.isSome_iff_exists.mp h
    simp only [hc, if_false, Bool.false_eq_true]
    exact Option.isSome_iff_exists.mpr ⟨v, dictGet_append_left _ _ _ _ hv⟩

theorem is_registered_update (vt : VariableTracker) (n d m : String)
    (h : vt.is_registered m = true) :
    ((vt.update_description n d).2).is_registered m = true := by
  unfold VariableTracker.is_registered at h ⊢
  unfold VariableTracker.update_description
  cases hg : dictGet vt.vars n with
  | none => simpa using h
  | some info =>
      by_cases hm : n = m
      · subst hm
        simp [dictGet_set_self]
      · simp [dictGet_set_ne _ _ _ _ hm, h]

/-! Concrete builder states used by witnesses and counterexamples. -/

/-- A freshly constructed builder. -/
def w0 : Workflow := mkWorkflow "Demo" "" "en" "tester" "tester" ⟨0⟩

/-- The fresh builder after one `add_start_node` call. -/
def w0e : Workflow := (w0.add_start_node).2

/-- C2 — `add_start_node` on a builder that already has an entry node fails
with the duplicate-entry error and returns the state unchanged; the check is
the first statement of the method. -/
theorem addStartNode_duplicate_fails_state_unchanged (w : Workflow) (s : Node)
    (h : w.start_node = some s) :
    w.add_start_node =
      (.error "Start node already exists. Only one start node is allowed per workflow.", w) := by
  unfold Workflow.add_start_node
  rw [h]

/-- C2 witness at a concrete builder that already holds its entry node. -/
theorem addStartNode_duplicate_fails_witness :
    w0e.add_start_node =
      (.error "Start node already exists. Only one start node is allowed per workflow.", w0e) :=
  addStartNode_duplicate_fails_state_unchanged w0e _ rfl

/-- C4 — registering an already-registered name is a complete no-op: the
registry state, hence `count()` and the stored description, are unchanged for
every second description. -/
theorem register_idempotent (vt : VariableTracker) (name : String) (d : Option String)
    (h : vt.is_registered name = true) :
    vt.register name d = vt ∧
    (vt.register name d).count = vt.count ∧
    dictGet (vt.register name d).vars name = dictGet vt.vars name := by
  have h' : (dictGet vt.vars name).isSome = true := h
  refine ⟨?_, ?_, ?_⟩ <;> simp [VariableTracker.register, h']

/-- C4 witness: re-registering "name" with a different description changes
nothing. -/
theorem register_idempotent_witness :
    ((VariableTracker.init "en").register "name" none).register "name" (some "other") =
        (VariableTracker.init "en").register "name" none ∧
    (((VariableTracker.init "en").register "name" none).register "name" (some "other")).count =
        ((VariableTracker.init "en").register "name" none).count ∧
    dictGet (((VariableTracker.init "en").register "name" none).register "name" (some "other")).vars "name" =
        dictGet ((VariableTracker.init "en").register "name" none).vars "name" :=
  register_idempotent ((VariableTracker.init "en").register "name" none) "name"
    (some "other") (by decide)

/-- C3 counterexample — `clear()` is a registry operation that removes every
entry: "name" is registered, then no longer registered after `clear`. -/
theorem registry_clear_removes_entries :
    ((VariableTracker.init "en").register "name" none).is_registered "name" = true ∧
    (((VariableTracker.init "en").register "name" none).clear).is_registered "name" = false := by
  decide

/-- C3 (amended) — under every sequence of `register` / `update_description`
operations the set of registered names is monotonically non-decreasing; only
`clear` removes entries. -/
theorem registry_monotone_without_clear (ops : List RegOp) (vt : VariableTracker)
    (name : String) (h : vt.is_registered name = true) :
    (ops.foldl applyRegOp vt).is_registered name = true := by
  induction ops generalizing vt with
  | nil => exact h
  | cons op rest ih =>
      cases op with
      | reg n d => exact ih _ (is_registered_register vt n d name h)
      | upd n d => exact ih _ (is_registered_update vt n d name h)

/-- C3 witness: a concrete clear-free operation sequence keeps "name"
registered. -/
theorem registry_monotone_witness :
    ([RegOp.reg "a" none, RegOp.upd "name" "changed", RegOp.reg "name" (some "x")].foldl
      applyRegOp ((VariableTracker.init "en").register "name" none)).is_registered
      "name" = true :=
  registry_monotone_without_clear _ ((VariableTracker.init "en").register "name" none)
    "name" (by decide)

/-- C5 — the edge id is a pure function of (source, target, sourceHandle,
targetHandle): adding the same logical edge twice yields two retained edges
with identical ids, and the table grows by one per add. -/
theorem edge_ids_deterministic_no_dedup (em : EdgeManager) (src tgt : String)
    (sh th : Option String) :
    ((em.add_edge src tgt sh th).1).id =
        (((em.add_edge src tgt sh th).2).add_edge src tgt sh th).1.id ∧
    ((((em.add_edge src tgt sh th).2).add_edge src tgt sh th).2).edges =
        em.edges ++ [(em.add_edge src tgt sh th).1, (em.add_edge src tgt sh th).1] ∧
    (((em.add_edge src tgt sh th).2)).count = em.count + 1 ∧
    ((((em.add_edge src tgt sh th).2).add_edge src tgt sh th).2).count = em.count + 2 := by
  refine ⟨rfl, ?_, ?_, ?_⟩ <;> simp [EdgeManager.add_edge, EdgeManager.count]

/-- C6 — on a fresh calculator the (n+1)-st pair is functional
`(125, 325 + 200 n)` and wrapper `(475 + 350 n, functional y - 50)`; and for
every calculator state the wrapper's y equals its paired functional node's y
plus the fixed offset, whatever the wrapper counter is. -/
theorem position_pairs_deterministic :
    (∀ n : Nat,
      ((PositionCalculator.iterPairs PositionCalculator.init n).get_node_pair_positions).1 =
        (⟨125, 325 + (n : Int) * 200⟩,
         ⟨475 + (n : Int) * 350, 325 + (n : Int) * 200 + (-50)⟩)) ∧
    (∀ pc : PositionCalculator,
      ((pc.get_node_pair_positions).1.2).y =
        ((pc.get_node_pair_positions).1.1).y + PositionCalculator.BLOCK_Y_OFFSET) := by
  constructor
  · intro n
    rw [show PositionCalculator.init = (⟨0, 0⟩ : PositionCalculator) from rfl,
      iterPairs_counts]
    simp [PositionCalculator.get_node_pair_positions,
      PositionCalculator.get_functional_position, PositionCalculator.get_block_position,
      PositionCalculator.FUNCTIONAL_X, PositionCalculator.FUNCTIONAL_START_Y,
      PositionCalculator.FUNCTIONAL_Y_INCREMENT, PositionCalculator.BLOCK_START_X,
      PositionCalculator.BLOCK_X_INCREMENT, PositionCalculator.BLOCK_Y_OFFSET]
  · intro pc
    simp [PositionCalculator.get_node_pair_positions,
      PositionCalculator.get_functional_position, PositionCalculator.get_block_position]

/-- C9 — `to_json` is a pure function of the builder state: it returns the
builder unchanged, and a second export of that unchanged builder yields a
structurally identical document. -/
theorem export_pure_and_repeatable (w : Workflow) :
    (w.to_json).2 = w ∧ ((w.to_json).2.to_json).1 = (w.to_json).1 :=
  ⟨rfl, rfl⟩

/-! The C8 scenario: entry, text-reply "Hi", capture-input "name",
text-reply "Thanks, \x7b\x7bname\x7d\x7d", all with auto-connect on. -/

def scn1 : String × Workflow := w0e.add_text_reply "Hi" "Response" true

def scn2 : String × Workflow := scn1.2.add_capture_user_reply "name" none "Capture" true

def scn3 : String × Workflow :=
  scn2.2.add_text_reply "Thanks, \x7b\x7bname\x7d\x7d" "Response" true

/-- C8 — the scenario yields 7 nodes (entry plus three functional/wrapper
pairs), 3 edges chaining entry to reply1 to capture to reply2 in order, and
exactly one registered variable named "name". -/
theorem scenario_seven_nodes_three_edges_one_variable :
    scn3.2.nodes.length = 7 ∧
    scn3.2.edge_manager.edges.map (fun e => (e.source, e.target)) =
      [(generateStartNodeId, scn1.1), (scn1.1, scn2.1), (scn2.1, scn3.1)] ∧
    scn3.2.variable_tracker.get_all_variables.map (fun v => v.variable_name) =
      ["name"] := by
  decide

/-! The auto-connect step only ever touches the edge table. -/

theorem autoConnectStep_nodes (w : Workflow) (ac : Bool) (prev : Option String)
    (bid : String) : (w.autoConnectStep ac prev bid).nodes = w.nodes := by
  cases ac <;> cases prev <;> rfl

theorem autoConnectStep_block_to_func (w : Workflow) (ac : Bool) (prev : Option String)
    (bid : String) : (w.autoConnectStep ac prev bid).block_to_func = w.block_to_func := by
  cases ac <;> cases prev <;> rfl

theorem autoConnectStep_func_to_block (w : Workflow) (ac : Bool) (prev : Option String)
    (bid : String) : (w.autoConnectStep ac prev bid).func_to_block = w.func_to_block := by
  cases ac <;> cases prev <;> rfl

theorem autoConnectStep_start_node (w : Workflow) (ac : Bool) (prev : Option String)
    (bid : String) : (w.autoConnectStep ac prev bid).start_node = w.start_node := by
  cases ac <;> cases prev <;> rfl

theorem autoConnectStep_none (w : Workflow) (ac : Bool) (bid : String) :
    w.autoConnectStep ac none bid = w := by
  cases ac <;> rfl

/-- C10 counterexample — on a fresh builder, `add_text_reply` with
auto-connect on leaves the edge table unchanged but also modifies the
position counters and the "last added" cursor, so the frame stated by the
claim (only node list, maps, handle store and variable registry modified)
fails. -/
theorem fresh_add_modifies_cursor_and_counters :
    ¬ (((w0.add_text_reply "Hi" "Response" true).2).edge_manager = w0.edge_manager ∧
       ((w0.add_text_reply "Hi" "Response" true).2).position_calc = w0.position_calc ∧
       ((w0.add_text_reply "Hi" "Response" true).2).last_block_id = w0.last_block_id) := by
  decide

/-- What a functional add with auto-connect on actually leaves unchanged on a
builder whose cursor is unset, and which extra components it modifies: the
edge table, entry reference and document metadata stay as they were, while
the cursor becomes the new wrapper id and both position counters advance. -/
def freshAddFrame (w w' : Workflow) : Prop :=
  w'.edge_manager = w.edge_manager ∧
  w'.start_node = w.start_node ∧
  w'.flow_name = w.flow_name ∧
  w'.description = w.description ∧
  w'.lang = w.lang ∧
  w'.created_by = w.created_by ∧
  w'.modified_by = w.modified_by ∧
  w'.flow_uuid = w.flow_uuid ∧
  w'.intention_uuid = w.intention_uuid ∧
  w'.last_block_id = some (uuidStr w.gen.counter) ∧
  w'.position_calc = ⟨w.position_calc.functional_node_count + 1,
                      w.position_calc.block_node_count + 1⟩

/-- C10 (amended) — on a builder whose cursor is unset, every functional
add-operation with auto-connect on adds zero edges; besides the node list,
the id maps, the handle store and the variable registry, it also modifies the
position counters and sets the cursor to the new wrapper id. -/
theorem fresh_add_adds_no_edges (w : Workflow) (h : w.last_block_id = none) :
    (∀ text title, freshAddFrame w (w.add_text_reply text title true).2) ∧
    (∀ name d title, freshAddFrame w (w.add_capture_user_reply name d title true).2) ∧
    (∀ conds title, freshAddFrame w (w.add_condition conds title true).2) ∧
    (∀ code outs args title d, freshAddFrame w (w.add_code code outs args title d true).2) ∧
    (∀ pt va cfg title d,
      freshAddFrame w (w.add_llm_variable_assignment pt va cfg title d true).2) ∧
    (∀ pt cfg title d, freshAddFrame w (w.add_llm_reply pt cfg title d true).2) := by
  refine ⟨?_, ?_, ?_, ?_, ?_, ?_⟩ <;> intros <;>
    simp [freshAddFrame, Workflow.add_text_reply, Workflow.add_capture_user_reply,
      Workflow.add_condition, Workflow.add_code, Workflow.add_llm_variable_assignment,
      Workflow.add_llm_reply, h, autoConnectStep_none, genUuid,
      PositionCalculator.get_node_pair_positions,
      PositionCalculator.get_functional_position, PositionCalculator.get_block_position]

/-- C10 witness at the fresh builder. -/
theorem fresh_add_adds_no_edges_witness :
    freshAddFrame w0 (w0.add_text_reply "Hi" "Response" true).2 :=
  (fresh_add_adds_no_edges w0 rfl).1 "Hi" "Response"

/-! C1: the auto-connect edge of each functional add. -/

/-- The fresh builder after adding one condition node (no entry, so no edge
is created and the cursor points at the condition wrapper). -/
def condW : Workflow := (w0.add_condition [] "Condition" true).2

/-- The condition wrapper's id. -/
def condBlockId : String := (w0.add_condition [] "Condition" true).1.1

/-- The condition functional node's generated default exit anchor
(`data.sourceHandle`); the functional node is the first node appended. -/
def condAnchorId : String :=
  match condW.nodes with
  | n :: _ => n.dataSourceHandle
  | [] => ""

/-- C1 counterexample — when the previous node is a condition wrapper, the
auto-connect edge's source handle is the wrapper's raw id (no handle was
stored for it), not the condition node's default exit anchor. -/
theorem autoconnect_after_condition_uses_block_id :
    condW.last_block_id = some condBlockId ∧
    ((condW.add_text_reply "Hi" "Response" true).2).edge_manager.edges.map
      (fun e => e.sourceHandle) = [condBlockId] ∧
    ((condW.nodes.map (fun n => n.type)).take 1 = ["condition"]) ∧
    condAnchorId ≠ condBlockId := by
  decide

/-- The exact auto-connect edge a functional add appends when the cursor is
`c`: source is the cursor, target the new wrapper id, source handle the
stored default exit anchor of the cursor (falling back to the cursor id when
none was stored), target handle the new functional node's id. -/
def autoEdgeSpec (w : Workflow) (c : String) (w' : Workflow) : Prop :=
  ∃ e : Edge,
    w'.edge_manager.edges = w.edge_manager.edges ++ [e] ∧
    e.source = c ∧
    e.target = uuidStr w.gen.counter ∧
    e.sourceHandle = (dictGet w.node_handles c).getD c ∧
    e.targetHandle = uuidStr (w.gen.counter + 1)

/-- C1 (amended) — every functional add with auto-connect on and a cursor
`c` (the fresh wrapper id being distinct from `c`, as uuid draws are) adds
exactly one edge from `c` to the new wrapper, whose target handle is the new
functional node's id and whose source handle is the stored default exit
anchor of `c` when one was stored — which holds for every previous node type
except condition, for which nothing was stored and the handle falls back to
the raw cursor id. -/
theorem autoconnect_edge_shape (w : Workflow) (c : String)
    (h : w.last_block_id = some c) (hc : c ≠ uuidStr w.gen.counter) :
    (∀ text title, autoEdgeSpec w c (w.add_text_reply text title true).2) ∧
    (∀ name d title, autoEdgeSpec w c (w.add_capture_user_reply name d title true).2) ∧
    (∀ conds title, autoEdgeSpec w c (w.add_condition conds title true).2) ∧
    (∀ code outs args title d, autoEdgeSpec w c (w.add_code code outs args title d true).2) ∧
    (∀ pt va cfg title d,
      autoEdgeSpec w c (w.add_llm_variable_assignment pt va cfg title d true).2) ∧
    (∀ pt cfg title d, autoEdgeSpec w c (w.add_llm_reply pt cfg title d true).2) := by
  have hne : uuidStr w.gen.counter ≠ c := Ne.symm hc
  refine ⟨?_, ?_, ?_, ?_, ?_, ?_⟩ <;> intros <;>
    exact ⟨create_edge c (uuidStr w.gen.counter) (dictGet w.node_handles c)
        (some (uuidStr (w.gen.counter + 1))) 0 0 0 0,
      by simp [Workflow.add_text_reply, Workflow.add_capture_user_reply,
        Workflow.add_condition, Workflow.add_code, Workflow.add_llm_variable_assignment,
        Workflow.add_llm_reply, Workflow.autoConnectStep, Workflow.connect_nodes,
        EdgeManager.add_edge, h, genUuid, dictGet_set_self, dictGet_set_ne _ _ _ _ hne,
        create_text_reply_node, create_capture_user_reply_node, create_condition_node,
        create_code_node, create_llm_variable_assignment_node, create_llm_reply_node,
        create_block_for_functional_node, Node.dataSourceHandle],
      rfl, rfl, rfl, rfl⟩

/-- C1 witness: after `addEntry` on the fresh builder, adding a text reply
auto-connects from the entry node with its stored exit anchor. -/
theorem autoconnect_edge_shape_witness :
    autoEdgeSpec w0e generateStartNodeId
      (w0e.add_text_reply "Hi" "Response" true).2 :=
  (autoconnect_edge_shape w0e generateStartNodeId rfl (by decide)).1 "Hi" "Response"

/-! C7: node-list growth and mutual consistency of the wrapper/functional
bidirectional maps. -/

/-- The spec's map consistency: for every wrapper id in the wrapper-to-
functional map, mapping back through the functional-to-wrapper map returns
the wrapper id. -/
def mapsConsistent (w : Workflow) : Prop :=
  ∀ b f, dictGet w.block_to_func b = some f → dictGet w.func_to_block f = some b

/-- Well-formedness of a builder state: every functional-node id recorded in
the wrapper-to-functional map was drawn from the id supply before its current
position (true of every state the builder can actually reach, since the map
is only ever extended with freshly drawn ids). -/
def idsFromGen (w : Workflow) : Prop :=
  ∀ b f, dictGet w.block_to_func b = some f → ∃ j, j < w.gen.counter ∧ f = uuidStr j

/-- Conclusion of C7 for one add-operation: the node list grew by exactly two
and the bidirectional maps are mutually consistent afterwards. -/
def addOk (w w' : Workflow) : Prop :=
  w'.nodes.length = w.nodes.length + 2 ∧ mapsConsistent w'

theorem consistent_insert (b2f f2b : List (String × String)) (n i j : Nat)
    (hcons : ∀ b f, dictGet b2f b = some f → dictGet f2b f = some b)
    (hbound : ∀ b f, dictGet b2f b = some f → ∃ k, k < n ∧ f = uuidStr k)
    (_hi : n ≤ i) (hj : n ≤ j) (b f : String)
    (hget : dictGet (dictSet b2f (uuidStr i) (uuidStr j)) b = some f) :
    dictGet (dictSet f2b (uuidStr j) (uuidStr i)) f = some b := by
  by_cases hb : b = uuidStr i
  · subst hb
    rw [dictGet_set_self] at hget
    obtain rfl : uuidStr j = f := Option.some_injective _ hget
    exact dictGet_set_self _ _ _
  · rw [dictGet_set_ne _ _ _ _ (fun hh => hb hh.symm)] at hget
    have hfne : uuidStr j ≠ f := by
      obtain ⟨k, hk, rfl⟩ := hbound b f hget
      intro hh
      have := uuidStr_injective hh
      omega
    rw [dictGet_set_ne _ _ _ _ hfne]
    exact hcons b f hget

/-- C7 — on every well-formed builder state, each functional add-operation
grows the node list by exactly two (functional node plus wrapper) and leaves
the wrapper/functional bidirectional maps mutually consistent. -/
theorem adds_grow_by_two_maps_consistent (w : Workflow) (hcons : mapsConsistent w)
    (hids : idsFromGen w) :
    (∀ text title ac, addOk w (w.add_text_reply text title ac).2) ∧
    (∀ name d title ac, addOk w (w.add_capture_user_reply name d title ac).2) ∧
    (∀ conds title ac, addOk w (w.add_condition conds title ac).2) ∧
    (∀ code outs args title d ac, addOk w (w.add_code code outs args title d ac).2) ∧
    (∀ pt va cfg title d ac,
      addOk w (w.add_llm_variable_assignment pt va cfg title d ac).2) ∧
    (∀ pt cfg title d ac, addOk w (w.add_llm_reply pt cfg title d ac).2) := by
  refine ⟨?_, ?_, ?_, ?_, ?_, ?_⟩ <;> intros <;>
    refine ⟨by simp [Workflow.add_text_reply, Workflow.add_capture_user_reply,
        Workflow.add_condition, Workflow.add_code, Workflow.add_llm_variable_assignment,
        Workflow.add_llm_reply, autoConnectStep_nodes], fun b f hget => ?_⟩ <;>
    · revert hget
      simp only [Workflow.add_text_reply, Workflow.add_capture_user_reply,
        Workflow.add_condition, Workflow.add_code, Workflow.add_llm_variable_assignment,
        Workflow.add_llm_reply, autoConnectStep_block_to_func,
        autoConnectStep_func_to_block, genUuid,
        create_text_reply_node, create_capture_user_reply_node, create_condition_node,
        create_code_node, create_llm_variable_assignment_node, create_llm_reply_node,
        create_block_for_functional_node]
      exact consistent_insert w.block_to_func w.func_to_block w.gen.counter
        w.gen.counter (w.gen.counter + 1) hcons hids (Nat.le_refl _)
        (Nat.le_succ _) b f

/-- C7 witness at the fresh builder (empty maps are trivially consistent and
generator-bounded). -/
theorem adds_grow_by_two_maps_consistent_witness :
    addOk w0 (w0.add_text_reply "Hi" "Response" true).2 :=
  (adds_grow_by_two_maps_consistent w0
    (by intro b f hget; simp [dictGet] at hget)
    (by intro b f hget; simp [dictGet] at hget)).1 "Hi" "Response" true

end ChatFlow

